/-
Verification of the Asterix impact-effect engine and extraction orchestrator.

The definitions below are a shallow embedding of
`src/backend/api/services/impact_calculator.py` (class `ImpactCalculator`),
`src/backend/api/services/data_extraction.py` (class `DataExtractionService`)
and the coordinate checks of the topography/geology extractors.  Python
floats are modelled as real numbers; the one float-specific behaviour that
the control flow of the solver depends on is kept explicit: Python raises
`OverflowError` from `r ** k` when the result exceeds the largest double
(≈1.798e308), and the solver's `except` clause turns any such exception
into the closed-form fallback value.  `pyPowOverflow` models exactly that
condition.  All other arithmetic is exact real arithmetic.
-/
import Mathlib

open Real

/-- Largest IEEE-754 double, `sys.float_info.max = (2 - 2^-52) * 2^1023`:
Python `r ** k` raises `OverflowError` beyond it. -/
noncomputable def floatMax : ℝ := 2 ^ (1024 : ℕ) - 2 ^ (971 : ℕ)

/-- `JOULES_TO_MEGATONS = 1 / 4.184e15` (impact_calculator.py line 27). -/
noncomputable def JOULES_TO_MEGATONS : ℝ := 1 / 4.184e15

/-- Sphere volume `(4/3) * pi * (d/2)^3` computed by
`_calculate_kinetic_energy` (lines 144-145). -/
noncomputable def volume_m3 (diameter_m : ℝ) : ℝ :=
  (4 / 3) * Real.pi * (diameter_m / 2) ^ (3 : ℕ)

/-- Impactor mass `density * volume` (line 148). -/
noncomputable def mass_kg (diameter_m density_kg_m3 : ℝ) : ℝ :=
  density_kg_m3 * volume_m3 diameter_m

/-- `_calculate_kinetic_energy` (lines 135-153): `0.5 * mass * v^2`. -/
noncomputable def calculateKineticEnergy (diameter_m velocity_ms density_kg_m3 : ℝ) : ℝ :=
  0.5 * mass_kg diameter_m density_kg_m3 * velocity_ms ^ (2 : ℕ)

/-- Crater dimensions returned by `_calculate_crater_dimensions` (lines 159-194). -/
structure CraterData where
  diameter_km : ℝ
  depth_km : ℝ
  diameter_m : ℝ
  depth_m : ℝ

/-- `_calculate_crater_dimensions`: Holsapple-Schmidt scaling
`1.161 * (rho_i/rho_t)^(1/3) * (KE/(2.5e6 * rho_t))^0.22 * D`, depth a quarter
of the diameter. -/
noncomputable def calculateCraterDimensions
    (diameter_m asteroid_density_kg_m3 target_density_kg_m3 kinetic_energy : ℝ) :
    CraterData :=
  let crater_diameter_m :=
    1.161 * (asteroid_density_kg_m3 / target_density_kg_m3) ^ ((1 : ℝ) / 3) *
      (kinetic_energy / (2.5e6 * target_density_kg_m3)) ^ (0.22 : ℝ) * diameter_m
  let crater_diameter_km := crater_diameter_m / 1000
  let crater_depth_km := crater_diameter_km * 0.25
  { diameter_km := crater_diameter_km
    depth_km := crater_depth_km
    diameter_m := crater_diameter_m
    depth_m := crater_depth_km * 1000 }

/-- The overpressure at radius `r` evaluated inside `_solve_overpressure_radius`
(lines 240-244): `0.85*KE^(1/3)/r + 3*KE^(2/3)/r^2 + 7*KE/r^3`. -/
noncomputable def overpressure (kinetic_energy r : ℝ) : ℝ :=
  0.85 * kinetic_energy ^ ((1 : ℝ) / 3) / r +
    3 * kinetic_energy ^ ((2 : ℝ) / 3) / r ^ (2 : ℕ) +
    7 * kinetic_energy / r ^ (3 : ℕ)

/-- The derivative `dP_dr` evaluated inside the loop (lines 247-251). -/
noncomputable def overpressureDeriv (kinetic_energy r : ℝ) : ℝ :=
  -(0.85 * kinetic_energy ^ ((1 : ℝ) / 3) / r ^ (2 : ℕ)) -
    6 * kinetic_energy ^ ((2 : ℝ) / 3) / r ^ (3 : ℕ) -
    21 * kinetic_energy / r ^ (4 : ℕ)

/-- Python raises `OverflowError` from `r ** 2`, `r ** 3` or `r ** 4` inside
the loop body exactly when the power exceeds the largest double. -/
noncomputable def pyPowOverflow (r : ℝ) : Prop :=
  floatMax < r ^ (2 : ℕ) ∨ floatMax < |r ^ (3 : ℕ)| ∨ floatMax < r ^ (4 : ℕ)

/-- The loop body raises (and the `except` clause of
`_solve_overpressure_radius` returns the fallback) when a power of the
current iterate overflows, when `r = 0` (ZeroDivisionError in the pressure
terms) or when the derivative is zero (ZeroDivisionError in the update). -/
noncomputable def newtonExcept (kinetic_energy r : ℝ) : Prop :=
  r = 0 ∨ pyPowOverflow r ∨ overpressureDeriv kinetic_energy r = 0

/-- One Newton-Raphson update `r_new = r - (P(r) - P_target) / P'(r)`
(line 254). -/
noncomputable def newtonStep (kinetic_energy target_pressure_pa r : ℝ) : ℝ :=
  r - (overpressure kinetic_energy r - target_pressure_pa) /
    overpressureDeriv kinetic_energy r

open scoped Classical in
/-- The `for _ in range(100)` loop of `_solve_overpressure_radius`, with the
fuel made explicit.  `none` signals an exception escaping to the `except`
clause; on `|r_new - r| < 1.0` the loop breaks before the assignment
`r = r_new`, so the pre-update iterate is returned; when the fuel runs out
the current iterate is returned. -/
noncomputable def newtonLoop (kinetic_energy target_pressure_pa : ℝ) :
    ℕ → ℝ → Option ℝ
  | 0, r => some r
  | n + 1, r =>
    if newtonExcept kinetic_energy r then none
    else
      let rNew := newtonStep kinetic_energy target_pressure_pa r
      if |rNew - r| < 1 then some r
      else newtonLoop kinetic_energy target_pressure_pa n rNew

/-- The pure Newton iterate sequence started from the initial guess 1000 m. -/
noncomputable def newtonIter (kinetic_energy target_pressure_pa : ℝ) (n : ℕ) : ℝ :=
  (newtonStep kinetic_energy target_pressure_pa)^[n] 1000

/-- `_solve_overpressure_radius` (lines 226-268): PSI converted to pascals by
`* 6894.76`, Newton iteration from 1000 m for at most 100 iterations, result
in km; any exception yields the fallback `KE^(1/3) / 1000`. -/
noncomputable def solveOverpressureRadius (kinetic_energy target_psi : ℝ) : ℝ :=
  match newtonLoop kinetic_energy (target_psi * 6894.76) 100 1000 with
  | some r => r / 1000
  | none => kinetic_energy ^ ((1 : ℝ) / 3) / 1000

/-- The airblast result of `_calculate_airblast_effects` (lines 200-224):
the `blast_radii_km` dict always holds exactly the keys
`1.0_psi`, `2.5_psi`, `5.0_psi`, `15.0_psi`. -/
structure AirblastData where
  psi_1_0 : ℝ
  psi_2_5 : ℝ
  psi_5_0 : ℝ
  psi_15_0 : ℝ
  fireball_radius_km : ℝ

/-- `_calculate_airblast_effects`: one solve per threshold plus the closed-form
fireball radius `KE^(1/3)/1000`. -/
noncomputable def calculateAirblastEffects (kinetic_energy : ℝ) : AirblastData :=
  { psi_1_0 := solveOverpressureRadius kinetic_energy 1.0
    psi_2_5 := solveOverpressureRadius kinetic_energy 2.5
    psi_5_0 := solveOverpressureRadius kinetic_energy 5.0
    psi_15_0 := solveOverpressureRadius kinetic_energy 15.0
    fireball_radius_km := kinetic_energy ^ ((1 : ℝ) / 3) / 1000 }

/-- The earthquake result of `_calculate_earthquake_effects` (lines 270-299);
the shaking intensities are stored for the fixed distances 10, 50, 100, 500
and 1000 km. -/
structure EarthquakeData where
  moment_magnitude : ℝ
  richter_magnitude : ℝ
  intensity_10 : ℝ
  intensity_50 : ℝ
  intensity_100 : ℝ
  intensity_500 : ℝ
  intensity_1000 : ℝ

/-- The stored intensity for one distance:
`min(12, max(1, max(1, Mw - log10(d) - 1.0)))` (lines 287-288). -/
noncomputable def shakingIntensity (moment_magnitude distance : ℝ) : ℝ :=
  min 12 (max 1 (max 1 (moment_magnitude - Real.logb 10 distance - 1)))

/-- `_calculate_earthquake_effects`: `Mw = 0.67*log10(KE) - 5.87`, Richter
approximation `Mw - 0.2`, intensities at the fixed distances. -/
noncomputable def calculateEarthquakeEffects (kinetic_energy : ℝ) : EarthquakeData :=
  let moment_magnitude := 0.67 * Real.logb 10 kinetic_energy - 5.87
  { moment_magnitude := moment_magnitude
    richter_magnitude := moment_magnitude - 0.2
    intensity_10 := shakingIntensity moment_magnitude 10
    intensity_50 := shakingIntensity moment_magnitude 50
    intensity_100 := shakingIntensity moment_magnitude 100
    intensity_500 := shakingIntensity moment_magnitude 500
    intensity_1000 := shakingIntensity moment_magnitude 1000 }

/-- The thermal result of `_calculate_thermal_effects` (lines 301-319). -/
structure ThermalData where
  thermal_radius_km : ℝ
  fireball_temperature_k : ℝ
  fireball_temperature_c : ℝ

/-- `_calculate_thermal_effects`: `KE^(1/3)/2000` and
`3000 + KE^(1/4)/1000`. -/
noncomputable def calculateThermalEffects (kinetic_energy : ℝ) : ThermalData :=
  let fireball_temperature_k := 3000 + kinetic_energy ^ ((1 : ℝ) / 4) / 1000
  { thermal_radius_km := kinetic_energy ^ ((1 : ℝ) / 3) / 2000
    fireball_temperature_k := fireball_temperature_k
    fireball_temperature_c := fireball_temperature_k - 273.15 }

/-- The tsunami result of `_calculate_tsunami_effects` (lines 321-362); the
per-distance heights sit at the same fixed distances as the earthquake
intensities. -/
structure TsunamiData where
  initial_wave_height_m : ℝ
  wave_10 : ℝ
  wave_50 : ℝ
  wave_100 : ℝ
  wave_500 : ℝ
  wave_1000 : ℝ
  water_depth_m : ℝ

/-- One per-distance wave height (lines 345-351):
`max(0.1, 0.15 * (D^4 / ((d/1000)^2 * dist^2))^(1/4))`. -/
noncomputable def tsunamiWaveHeight (crater_diameter_km water_depth_m distance : ℝ) : ℝ :=
  max 0.1 (0.15 * (crater_diameter_km ^ (4 : ℕ) /
    ((water_depth_m / 1000) ^ (2 : ℕ) * distance ^ (2 : ℕ))) ^ ((1 : ℝ) / 4))

open scoped Classical in
/-- `_calculate_tsunami_effects`: `None` for non-positive depth; the initial
wave height `0.15 * (D^4 / (d/1000)^2)^(1/4)` is NOT passed through the
`max(0.1, _)` floor that the per-distance heights get. -/
noncomputable def calculateTsunamiEffects (crater_diameter_km water_depth_m : ℝ) :
    Option TsunamiData :=
  if water_depth_m ≤ 0 then none
  else
    some
      { initial_wave_height_m :=
          0.15 * (crater_diameter_km ^ (4 : ℕ) /
            (water_depth_m / 1000) ^ (2 : ℕ)) ^ ((1 : ℝ) / 4)
        wave_10 := tsunamiWaveHeight crater_diameter_km water_depth_m 10
        wave_50 := tsunamiWaveHeight crater_diameter_km water_depth_m 50
        wave_100 := tsunamiWaveHeight crater_diameter_km water_depth_m 100
        wave_500 := tsunamiWaveHeight crater_diameter_km water_depth_m 500
        wave_1000 := tsunamiWaveHeight crater_diameter_km water_depth_m 1000
        water_depth_m := water_depth_m }

/-- One damage zone entry of `_calculate_damage_zones` (lines 364-407). -/
structure DamageZone where
  radius_km : ℝ
  zone_text : String
  damage_level : String

/-- The `damage_zones` dict: since `blast_radii_km` always carries all four
keys, the four `if key in blast_radii` guards of the source always pass and
the result always holds exactly these four zones. -/
structure DamageZones where
  window_shatter : DamageZone
  residential_damage : DamageZone
  building_destruction : DamageZone
  concrete_damage : DamageZone

/-- `_calculate_damage_zones`: a relabeling of the airblast radii. -/
noncomputable def calculateDamageZones (airblast : AirblastData) : DamageZones :=
  { window_shatter :=
      { radius_km := airblast.psi_1_0
        zone_text := "Most windows shatter"
        damage_level := "light" }
    residential_damage :=
      { radius_km := airblast.psi_2_5
        zone_text := "Most residential buildings severely damaged"
        damage_level := "moderate" }
    building_destruction :=
      { radius_km := airblast.psi_5_0
        zone_text := "Most buildings destroyed"
        damage_level := "severe" }
    concrete_damage :=
      { radius_km := airblast.psi_15_0
        zone_text := "Reinforced concrete buildings severely damaged"
        damage_level := "extreme" } }

/-- The `impact_energy` sub-dict of the engine result (lines 106-110). -/
structure ImpactEnergy where
  joules : ℝ
  megatons_tnt : ℝ
  kilotons_tnt : ℝ

/-- The `impact_location` sub-dict of the engine result (lines 117-123). -/
structure ImpactLocation where
  latitude : ℝ
  longitude : ℝ
  elevation_m : ℝ
  is_land : Bool
  water_depth_m : ℝ

/-- The full engine result dict of `calculate_impact_effects`
(lines 105-126).  Note: the source attaches `calculation_method` but no
`calculation_version` key. -/
structure ImpactResults where
  impact_energy : ImpactEnergy
  crater : CraterData
  airblast : AirblastData
  earthquake : EarthquakeData
  thermal : ThermalData
  tsunami : Option TsunamiData
  damage_zones : DamageZones
  impact_location : ImpactLocation
  calculated_at : String
  calculation_method : String

/-- `calculate_impact_effects` (lines 44-129).  `now` stands for the value
`datetime.utcnow().isoformat()` read from the clock at line 124; everything
else is a pure function of the arguments. -/
noncomputable def calculateImpactEffects
    (asteroid_diameter_m asteroid_velocity_ms asteroid_density_kg_m3
      target_density_kg_m3 impact_latitude impact_longitude elevation_m : ℝ)
    (is_land : Bool) (water_depth_m : ℝ) (now : String) : ImpactResults :=
  let impact_energy := calculateKineticEnergy asteroid_diameter_m
    asteroid_velocity_ms asteroid_density_kg_m3
  let crater_data := calculateCraterDimensions asteroid_diameter_m
    asteroid_density_kg_m3 target_density_kg_m3 impact_energy
  let airblast_data := calculateAirblastEffects impact_energy
  { impact_energy :=
      { joules := impact_energy
        megatons_tnt := impact_energy * JOULES_TO_MEGATONS
        kilotons_tnt := impact_energy * JOULES_TO_MEGATONS * 1000 }
    crater := crater_data
    airblast := airblast_data
    earthquake := calculateEarthquakeEffects impact_energy
    thermal := calculateThermalEffects impact_energy
    tsunami :=
      if is_land then none
      else calculateTsunamiEffects crater_data.diameter_km water_depth_m
    damage_zones := calculateDamageZones airblast_data
    impact_location :=
      { latitude := impact_latitude
        longitude := impact_longitude
        elevation_m := elevation_m
        is_land := is_land
        water_depth_m := water_depth_m }
    calculated_at := now
    calculation_method := "simplified_scaling_laws" }

/-- The top-level keys of the dict literal returned by
`calculate_impact_effects` (lines 105-126), in source order. -/
def engineResultKeys : List String :=
  ["impact_energy", "crater", "airblast", "earthquake", "thermal", "tsunami",
   "damage_zones", "impact_location", "calculated_at", "calculation_method"]

/-- The `ImpactCalculation` row built by
`DataExtractionService._calculate_impact_effects`
(data_extraction.py lines 367-381). -/
structure ImpactCalculationRecord where
  impact_energy_joules : ℝ
  impact_energy_megatons : ℝ
  crater_diameter_km : ℝ
  crater_depth_km : ℝ
  fireball_radius_km : ℝ
  thermal_radiation_radius_km : ℝ
  blast_wave_radius_km : ℝ
  richter_magnitude : ℝ
  tsunami_wave_height_meters : Option ℝ
  calculation_method : String
  calculation_version : String
  calculation_metadata : ImpactResults

/-- Lines 367-381: the single `blast_wave_radius_km` column is
`max(impact_effects["airblast"]["blast_radii_km"].values())`, a left fold of
`max` over the four radii in dict insertion order; the row also carries
`calculation_method = "simplified_scaling_laws"` and
`calculation_version = "1.0"`. -/
noncomputable def dbImpactCalculation (impact_effects : ImpactResults) :
    ImpactCalculationRecord :=
  { impact_energy_joules := impact_effects.impact_energy.joules
    impact_energy_megatons := impact_effects.impact_energy.megatons_tnt
    crater_diameter_km := impact_effects.crater.diameter_km
    crater_depth_km := impact_effects.crater.depth_km
    fireball_radius_km := impact_effects.airblast.fireball_radius_km
    thermal_radiation_radius_km := impact_effects.thermal.thermal_radius_km
    blast_wave_radius_km :=
      max (max (max impact_effects.airblast.psi_1_0 impact_effects.airblast.psi_2_5)
        impact_effects.airblast.psi_5_0) impact_effects.airblast.psi_15_0
    richter_magnitude := impact_effects.earthquake.richter_magnitude
    tsunami_wave_height_meters :=
      impact_effects.tsunami.map (fun t => t.initial_wave_height_m)
    calculation_method := "simplified_scaling_laws"
    calculation_version := "1.0"
    calculation_metadata := impact_effects }

/-- The `impact_calculation` sub-dict of the result built by
`get_extraction_results` (data_extraction.py lines 495-507). -/
structure QueryImpactCalculation where
  impact_energy_joules : ℝ
  impact_energy_megatons : ℝ
  crater_diameter_km : ℝ
  crater_depth_km : ℝ
  fireball_radius_km : ℝ
  thermal_radiation_radius_km : ℝ
  blast_wave_radius_km : ℝ
  richter_magnitude : ℝ
  tsunami_wave_height_meters : Option ℝ
  calculation_metadata : ImpactResults

/-- `get_extraction_results` (lines 495-507): the externally queryable
`impact_calculation` shape is a field-by-field copy of the stored row; it
exposes `calculation_metadata` but no top-level `calculation_method` or
`calculation_version` key. -/
noncomputable def queryImpactCalculation (row : ImpactCalculationRecord) :
    QueryImpactCalculation :=
  { impact_energy_joules := row.impact_energy_joules
    impact_energy_megatons := row.impact_energy_megatons
    crater_diameter_km := row.crater_diameter_km
    crater_depth_km := row.crater_depth_km
    fireball_radius_km := row.fireball_radius_km
    thermal_radiation_radius_km := row.thermal_radiation_radius_km
    blast_wave_radius_km := row.blast_wave_radius_km
    richter_magnitude := row.richter_magnitude
    tsunami_wave_height_meters := row.tsunami_wave_height_meters
    calculation_metadata := row.calculation_metadata }

/-- The keys of the `impact_calculation` dict literal of
`get_extraction_results` (lines 495-507), in source order. -/
def queryImpactCalculationKeys : List String :=
  ["impact_energy_joules", "impact_energy_megatons", "crater_diameter_km",
   "crater_depth_km", "fireball_radius_km", "thermal_radiation_radius_km",
   "blast_wave_radius_km", "richter_magnitude", "tsunami_wave_height_meters",
   "calculation_metadata"]

/-! ## The extraction orchestrator

`DataExtractionService.extract_comprehensive_data` (data_extraction.py lines
35-148) with the four adapters and the engine call abstracted into stage
outcomes.  Coordinates are rationals (every float literal of interest is one),
timestamps are opaque strings. -/

/-- A stage failure.  The coordinate checks of
`topography_extractor.extract_elevation_data` (lines 69-73) and
`geology_extractor.extract_geological_data` (lines 127-131) raise
`ValueError(f"Invalid latitude: {latitude}")` / longitude; any other adapter
or engine failure is `adapter msg`. -/
inductive StageError where
  | invalidLatitude (lat : ℚ)
  | invalidLongitude (lon : ℚ)
  | adapter (msg : String)
deriving DecidableEq

/-- The outcome each external collaborator would produce if reached (the
asteroid/topography/geology/regional adapters and the impact computation);
the orchestrator's own control flow is not abstracted. -/
structure StageOracles where
  asteroid : Except StageError Unit
  topography : Except StageError Unit
  geology : Except StageError Unit
  regional : Except StageError Unit
  impact : Except StageError Unit

/-- `TopographyExtractor.extract_elevation_data` checks the latitude range,
then the longitude range, before any network work. -/
def topographyStage (lat lon : ℚ) (oracle : Except StageError Unit) :
    Except StageError Unit :=
  if ¬(-90 ≤ lat ∧ lat ≤ 90) then .error (.invalidLatitude lat)
  else if ¬(-180 ≤ lon ∧ lon ≤ 180) then .error (.invalidLongitude lon)
  else oracle

/-- `GeologyExtractor.extract_geological_data` performs the same coordinate
checks. -/
def geologyStage (lat lon : ℚ) (oracle : Except StageError Unit) :
    Except StageError Unit :=
  if ¬(-90 ≤ lat ∧ lat ≤ 90) then .error (.invalidLatitude lat)
  else if ¬(-180 ≤ lon ∧ lon ≤ 180) then .error (.invalidLongitude lon)
  else oracle

/-- The five effective stage outcomes of one run, in pipeline order: the
coordinate validation lives inside stages 2 and 3, exactly as in the source. -/
def effectiveStages (lat lon : ℚ) (o : StageOracles) :
    List (Except StageError Unit) :=
  [o.asteroid, topographyStage lat lon o.topography,
   geologyStage lat lon o.geology, o.regional, o.impact]

/-- The mutable `ExtractionSession` row (database/models.py lines 88-106),
restricted to the fields the orchestrator writes. -/
structure SessionState where
  status : String
  progress_percentage : ℚ
  current_step : String
  errors : List (StageError × String)
deriving DecidableEq

/-- What one run leaves behind: the value returned or raised to the caller,
the session table (the one row, as last committed), and the `(status,
progress)` snapshot taken at every `db.commit()` in program order. -/
structure RunOutcome where
  result : Except StageError Unit
  sessions : List SessionState
  trace : List (String × ℚ)

/-- The `except` clause of `extract_comprehensive_data` (lines 140-148):
status `failed`, `current_step = "Error: ..."`, `errors` replaced by the
single timestamped entry, commit, re-raise. -/
def failRun (s : SessionState) (e : StageError) (now : String)
    (trace : List (String × ℚ)) : RunOutcome :=
  let s' : SessionState :=
    { s with
      status := "failed"
      current_step := "Error"
      errors := [(e, now)] }
  { result := .error e
    sessions := [s']
    trace := trace ++ [(s'.status, s'.progress_percentage)] }

/-- `extract_comprehensive_data` (lines 35-148): create the session row in
`pending` at progress 0 and commit; set `in_progress` and commit; run the
five stages, committing the 20/40/60/80 checkpoints between them; on full
success commit `completed` at 100; on the first stage failure run the
`except` clause.  The stage sub-calls' own data-row commits touch other
tables and are not part of the session trace. -/
def extractComprehensiveData (lat lon : ℚ) (o : StageOracles) (now : String) :
    RunOutcome :=
  let s0 : SessionState :=
    { status := "pending"
      progress_percentage := 0
      current_step := "Initializing"
      errors := [] }
  let t0 := [(s0.status, s0.progress_percentage)]
  let s1 : SessionState :=
    { s0 with
      status := "in_progress"
      current_step := "Extracting asteroid data" }
  let t1 := t0 ++ [(s1.status, s1.progress_percentage)]
  match o.asteroid with
  | .error e => failRun s1 e now t1
  | .ok _ =>
    let s2 : SessionState :=
      { s1 with
        progress_percentage := 20
        current_step := "Extracting topography data" }
    let t2 := t1 ++ [(s2.status, s2.progress_percentage)]
    match topographyStage lat lon o.topography with
    | .error e => failRun s2 e now t2
    | .ok _ =>
      let s3 : SessionState :=
        { s2 with
        progress_percentage := 40
        current_step := "Extracting geological data" }
      let t3 := t2 ++ [(s3.status, s3.progress_percentage)]
      match geologyStage lat lon o.geology with
      | .error e => failRun s3 e now t3
      | .ok _ =>
        let s4 : SessionState :=
          { s3 with
        progress_percentage := 60
        current_step := "Extracting regional data" }
        let t4 := t3 ++ [(s4.status, s4.progress_percentage)]
        match o.regional with
        | .error e => failRun s4 e now t4
        | .ok _ =>
          let s5 : SessionState :=
            { s4 with
        progress_percentage := 80
        current_step := "Calculating impact effects" }
          let t5 := t4 ++ [(s5.status, s5.progress_percentage)]
          match o.impact with
          | .error e => failRun s5 e now t5
          | .ok _ =>
            let s6 : SessionState :=
              { s5 with
                progress_percentage := 100
                status := "completed"
                current_step := "Completed" }
            { result := .ok ()
              sessions := [s6]
              trace := t5 ++ [(s6.status, s6.progress_percentage)] }

/-- The index (0-based) and error of the first failing effective stage. -/
def firstFailure : List (Except StageError Unit) → Option (ℕ × StageError)
  | [] => none
  | .error e :: _ => some (0, e)
  | .ok _ :: rest => (firstFailure rest).map (fun p => (p.1 + 1, p.2))

/-- Modelled from the claim: the distinct progress values a run must show -
`[0,20,40,60,80,100]` on success, and on a failure at 0-based stage `k` the
checkpoints up to `20*k` (the checkpoint preceding the failed stage). -/
def specProgressSeq (stages : List (Except StageError Unit)) : List ℚ :=
  match firstFailure stages with
  | none => [0, 20, 40, 60, 80, 100]
  | some (k, _) => ([0, 20, 40, 60, 80, 100] : List ℚ).take (k + 1)

/-- Modelled from the claim: the distinct status values in order -
`pending -> in_progress -> completed` on success, ending `failed` on failure. -/
def specStatusPath (stages : List (Except StageError Unit)) : List String :=
  match firstFailure stages with
  | none => ["pending", "in_progress", "completed"]
  | some _ => ["pending", "in_progress", "failed"]

/-- Modelled from the claim: the session's error list after the run - empty on
success, exactly one timestamped entry for the failing stage's error. -/
def specErrors (stages : List (Except StageError Unit)) (now : String) :
    List (StageError × String) :=
  match firstFailure stages with
  | none => []
  | some (_, e) => [(e, now)]

/-- A run in which every external collaborator succeeds. -/
def allOkOracles : StageOracles :=
  { asteroid := .ok ()
    topography := .ok ()
    geology := .ok ()
    regional := .ok ()
    impact := .ok () }

/-- The coordinate ranges enforced by the extractors' checks (latitude within
[-90, 90], longitude within [-180, 180], boundaries included). -/
def coordsValid (lat lon : ℚ) : Prop :=
  (-90 ≤ lat ∧ lat ≤ 90) ∧ (-180 ≤ lon ∧ lon ≤ 180)

instance (lat lon : ℚ) : Decidable (coordsValid lat lon) := by
  unfold coordsValid; infer_instance

/-! ## Theorems -/

/-- C4 counterexample: `calculate_impact_effects` stamps the result with
`datetime.utcnow()`, so two calls with identical physical inputs but made at
different clock instants produce results that differ (in `calculated_at`),
refuting bit-identical output. -/
theorem calculated_at_breaks_bitwise_determinism :
    (calculateImpactEffects 100 17000 3000 2500 39.7392 (-104.9903) 1600 true 0
        "2025-01-01T00:00:00").calculated_at = "2025-01-01T00:00:00" ∧
      (calculateImpactEffects 100 17000 3000 2500 39.7392 (-104.9903) 1600 true 0
        "2025-01-01T00:00:01").calculated_at = "2025-01-01T00:00:01" ∧
      calculateImpactEffects 100 17000 3000 2500 39.7392 (-104.9903) 1600 true 0
          "2025-01-01T00:00:00" ≠
        calculateImpactEffects 100 17000 3000 2500 39.7392 (-104.9903) 1600 true 0
          "2025-01-01T00:00:01" := by
  refine ⟨rfl, rfl, fun h => ?_⟩
  have h2 := congrArg ImpactResults.calculated_at h
  simp only [calculateImpactEffects] at h2
  exact absurd h2 (by decide)

/-- C4 amended: the engine is deterministic in its physical inputs up to the
clock read - two calls with identical inputs agree on every field except
`calculated_at`, which carries the respective clock value. -/
theorem impact_effects_deterministic_up_to_clock
    (d v rhoI rhoT lat lon elev : ℝ) (is_land : Bool) (depth : ℝ)
    (t1 t2 : String) :
    calculateImpactEffects d v rhoI rhoT lat lon elev is_land depth t1 =
      { calculateImpactEffects d v rhoI rhoT lat lon elev is_land depth t2 with
        calculated_at := t1 } := rfl

/-- C8 counterexample: the dict literal returned by
`calculate_impact_effects` has no `calculation_version` key, and the
externally queryable `impact_calculation` shape of `get_extraction_results`
has neither provenance key at top level, refuting the claim that both fields
are attached to every result shape. -/
theorem calculation_version_missing_from_engine_result :
    ("calculation_version" ∈ engineResultKeys) = False ∧
      ("calculation_version" ∈ queryImpactCalculationKeys) = False ∧
      ("calculation_method" ∈ queryImpactCalculationKeys) = False := by
  refine ⟨?_, ?_, ?_⟩ <;> simp [engineResultKeys, queryImpactCalculationKeys]

/-- C8 amended: the engine result carries only
`calculation_method = "simplified_scaling_laws"`; both provenance fields,
`calculation_method` and `calculation_version = "1.0"`, are attached to the
persisted `ImpactCalculation` row; the queryable result shape exposes the
engine result (with its method field) only nested under
`calculation_metadata`. -/
theorem provenance_fields_locations
    (d v rhoI rhoT lat lon elev : ℝ) (is_land : Bool) (depth : ℝ) (now : String) :
    (calculateImpactEffects d v rhoI rhoT lat lon elev is_land depth now).calculation_method =
        "simplified_scaling_laws" ∧
      ("calculation_method" ∈ engineResultKeys ∧
        "calculation_version" ∉ engineResultKeys) ∧
      (dbImpactCalculation
            (calculateImpactEffects d v rhoI rhoT lat lon elev is_land depth now)).calculation_method =
          "simplified_scaling_laws" ∧
      (dbImpactCalculation
            (calculateImpactEffects d v rhoI rhoT lat lon elev is_land depth now)).calculation_version =
          "1.0" ∧
      (queryImpactCalculation
            (dbImpactCalculation
              (calculateImpactEffects d v rhoI rhoT lat lon elev is_land depth
                now))).calculation_metadata =
          calculateImpactEffects d v rhoI rhoT lat lon elev is_land depth now := by
  exact ⟨rfl, ⟨by simp [engineResultKeys], by simp [engineResultKeys]⟩, rfl, rfl, rfl⟩

/-- C9: the `damage_zones` component always holds exactly the four zones,
and each zone's `radius_km` is the blast radius the solver computed for its
overpressure threshold (1.0, 2.5, 5.0, 15.0 psi), with the source's severity
labels - a pure relabeling of the airblast output. -/
theorem damage_zones_relabel_airblast
    (d v rhoI rhoT lat lon elev : ℝ) (is_land : Bool) (depth : ℝ) (now : String) :
    (calculateImpactEffects d v rhoI rhoT lat lon elev is_land depth
          now).damage_zones.window_shatter.radius_km =
        solveOverpressureRadius (calculateKineticEnergy d v rhoI) 1.0 ∧
      (calculateImpactEffects d v rhoI rhoT lat lon elev is_land depth
          now).damage_zones.residential_damage.radius_km =
        solveOverpressureRadius (calculateKineticEnergy d v rhoI) 2.5 ∧
      (calculateImpactEffects d v rhoI rhoT lat lon elev is_land depth
          now).damage_zones.building_destruction.radius_km =
        solveOverpressureRadius (calculateKineticEnergy d v rhoI) 5.0 ∧
      (calculateImpactEffects d v rhoI rhoT lat lon elev is_land depth
          now).damage_zones.concrete_damage.radius_km =
        solveOverpressureRadius (calculateKineticEnergy d v rhoI) 15.0 ∧
      (calculateImpactEffects d v rhoI rhoT lat lon elev is_land depth
          now).damage_zones =
        calculateDamageZones (calculateAirblastEffects (calculateKineticEnergy d v rhoI)) ∧
      (calculateImpactEffects d v rhoI rhoT lat lon elev is_land depth
          now).damage_zones.window_shatter.damage_level = "light" ∧
      (calculateImpactEffects d v rhoI rhoT lat lon elev is_land depth
          now).damage_zones.residential_damage.damage_level = "moderate" ∧
      (calculateImpactEffects d v rhoI rhoT lat lon elev is_land depth
          now).damage_zones.building_destruction.damage_level = "severe" ∧
      (calculateImpactEffects d v rhoI rhoT lat lon elev is_land depth
          now).damage_zones.concrete_damage.damage_level = "extreme" := by
  exact ⟨rfl, rfl, rfl, rfl, rfl, rfl, rfl, rfl, rfl⟩

/-- C10: the single `blast_wave_radius_km` column stored by
`_calculate_impact_effects` is the maximum of the four per-threshold blast
radii computed by the engine, and `get_extraction_results` returns exactly
the stored value in the queryable result shape. -/
theorem blast_wave_radius_is_max_of_thresholds
    (d v rhoI rhoT lat lon elev : ℝ) (is_land : Bool) (depth : ℝ) (now : String) :
    (dbImpactCalculation (calculateImpactEffects d v rhoI rhoT lat lon elev is_land
          depth now)).blast_wave_radius_km =
        max (max (max (solveOverpressureRadius (calculateKineticEnergy d v rhoI) 1.0)
            (solveOverpressureRadius (calculateKineticEnergy d v rhoI) 2.5))
          (solveOverpressureRadius (calculateKineticEnergy d v rhoI) 5.0))
          (solveOverpressureRadius (calculateKineticEnergy d v rhoI) 15.0) ∧
      (queryImpactCalculation (dbImpactCalculation (calculateImpactEffects d v rhoI rhoT
          lat lon elev is_land depth now))).blast_wave_radius_km =
        (dbImpactCalculation (calculateImpactEffects d v rhoI rhoT lat lon elev is_land
          depth now)).blast_wave_radius_km := by
  exact ⟨rfl, rfl⟩

/-- C5: for every run, the deduplicated sequence of committed progress values
is exactly 0,20,40,60,80,100 on success (status path pending, in_progress,
completed); a run whose first failure is at stage k stops at the checkpoint
preceding stage k, ends with status failed, and leaves exactly one
timestamped entry in the session's error list. -/
theorem session_trace_follows_stage_outcomes
    (lat lon : ℚ) (o : StageOracles) (now : String) :
    (((extractComprehensiveData lat lon o now).trace.map Prod.snd).dedup =
        specProgressSeq (effectiveStages lat lon o) ∧
      ((extractComprehensiveData lat lon o now).trace.map Prod.fst).dedup =
        specStatusPath (effectiveStages lat lon o)) ∧
      (extractComprehensiveData lat lon o now).sessions.map SessionState.errors =
        [specErrors (effectiveStages lat lon o) now] ∧
      (extractComprehensiveData lat lon o now).sessions.map SessionState.status =
        [match firstFailure (effectiveStages lat lon o) with
          | none => "completed"
          | some _ => "failed"] := by
  obtain ⟨a, t, g, r, i⟩ := o
  rcases a with ea | ⟨⟩ <;>
    [skip;
      rcases htop : topographyStage lat lon t with et | ⟨⟩] <;>
    [skip; skip;
      rcases hgeo : geologyStage lat lon g with eg | ⟨⟩] <;>
    [skip; skip; skip;
      rcases r with er | ⟨⟩] <;>
    [skip; skip; skip; skip;
      rcases i with ei | ⟨⟩] <;>
  simp_all [extractComprehensiveData, effectiveStages, failRun,
    firstFailure, specProgressSeq, specStatusPath, specErrors,
    List.dedup_cons_of_mem, List.dedup_cons_of_not_mem]

/-- C3 counterexample: a request with latitude 90.0001 is NOT rejected before
a session record is created - `extract_comprehensive_data` creates and
persists the session unconditionally, the run only fails later when the
topography extractor's range check raises `ValueError` at stage 2, and the
failed session row remains in the store (state IS mutated). -/
theorem session_created_despite_invalid_latitude :
    (extractComprehensiveData 90.0001 0 allOkOracles "ts").sessions.length = 1 ∧
      (extractComprehensiveData 90.0001 0 allOkOracles "ts").result =
        .error (.invalidLatitude 90.0001) ∧
      (extractComprehensiveData 90.0001 0 allOkOracles "ts").sessions.map
          SessionState.status = ["failed"] ∧
      ((extractComprehensiveData 90.0001 0 allOkOracles "ts").trace.map
          Prod.fst).dedup = ["pending", "in_progress", "failed"] := by
  refine ⟨?_, ?_, ?_, ?_⟩ <;>
    simp [extractComprehensiveData, allOkOracles, topographyStage, failRun,
      show ¬((-90 : ℚ) ≤ 90.0001 ∧ (90.0001 : ℚ) ≤ 90) by norm_num]

/-- C3 amended: coordinates outside the ranges are rejected - but by the
range check inside the topography extractor at stage 2, after the session
record has been created and mutated; the failed session persists with status
`failed`.  Boundary values latitude ±90 and longitude ±180 pass the check. -/
theorem invalid_coordinates_fail_after_session_creation
    (lat lon : ℚ) (o : StageOracles) (now : String)
    (hv : ¬ coordsValid lat lon) (ha : o.asteroid = Except.ok ()) :
    (∃ e, (extractComprehensiveData lat lon o now).result = .error e ∧
        (e = .invalidLatitude lat ∨ e = .invalidLongitude lon)) ∧
      (extractComprehensiveData lat lon o now).sessions.map SessionState.status =
        ["failed"] ∧
      coordsValid 90 180 ∧ coordsValid (-90) (-180) := by
  obtain ⟨a, t, g, r, i⟩ := o
  simp only at ha
  subst ha
  by_cases hlat : (-90 ≤ lat ∧ lat ≤ 90)
  · have hlon : ¬(-180 ≤ lon ∧ lon ≤ 180) := fun hl => hv ⟨hlat, hl⟩
    refine ⟨⟨.invalidLongitude lon, ?_, Or.inr rfl⟩, ?_, by norm_num [coordsValid],
      by norm_num [coordsValid]⟩ <;>
      simp [extractComprehensiveData, topographyStage, hlat, hlon, failRun]
  · refine ⟨⟨.invalidLatitude lat, ?_, Or.inl rfl⟩, ?_, by norm_num [coordsValid],
      by norm_num [coordsValid]⟩ <;>
      simp [extractComprehensiveData, topographyStage, hlat, failRun]

/-- Witness for the amended C3 theorem at latitude 90.0001. -/
theorem invalid_coordinates_fail_witness :
    (∃ e, (extractComprehensiveData 90.0001 0 allOkOracles "ts").result = .error e ∧
        (e = .invalidLatitude 90.0001 ∨ e = .invalidLongitude 0)) ∧
      (extractComprehensiveData 90.0001 0 allOkOracles "ts").sessions.map
          SessionState.status = ["failed"] ∧
      coordsValid 90 180 ∧ coordsValid (-90) (-180) :=
  invalid_coordinates_fail_after_session_creation 90.0001 0 allOkOracles "ts"
    (by norm_num [coordsValid]) rfl

/-- Cube root of a perfect cube under `rpow`. -/
theorem rpow_third_cube (A : ℝ) (hA : 0 ≤ A) : (A ^ (3 : ℕ)) ^ ((1 : ℝ) / 3) = A := by
  rw [← Real.rpow_natCast A 3, ← Real.rpow_mul hA]
  norm_num

/-- Two-thirds power of a perfect cube under `rpow`. -/
theorem rpow_twothird_cube (A : ℝ) (hA : 0 ≤ A) :
    (A ^ (3 : ℕ)) ^ ((2 : ℝ) / 3) = A ^ (2 : ℕ) := by
  rw [← Real.rpow_natCast A 3, ← Real.rpow_mul hA]
  norm_num

/-- Fourth root of a perfect fourth power under `rpow`. -/
theorem rpow_quarter_fourth (A : ℝ) (hA : 0 ≤ A) :
    (A ^ (4 : ℕ)) ^ ((1 : ℝ) / 4) = A := by
  rw [← Real.rpow_natCast A 4, ← Real.rpow_mul hA]
  norm_num

/-- For a small crater in 1000 m of water the unfloored initial wave height
falls below 0.1 m while the tsunami record is still produced. -/
theorem tsunami_initial_small_of_small_crater (D : ℝ) (hD0 : 0 ≤ D) (hD : D ≤ 1 / 2) :
    ∃ td, calculateTsunamiEffects D 1000 = some td ∧
      td.initial_wave_height_m < 0.1 := by
  have hd : ¬((1000 : ℝ) ≤ 0) := by norm_num
  simp only [calculateTsunamiEffects, if_neg hd]
  refine ⟨_, rfl, ?_⟩
  have h1 : ((1000 : ℝ) / 1000) ^ (2 : ℕ) = 1 := by norm_num
  rw [h1, div_one, rpow_quarter_fourth D hD0]
  nlinarith

/-- The crater diameter for a 1 m stony impactor at 100 m/s into
2500 kg/m³ target rock is at most one half kilometre (it is in fact well
under a metre). -/
theorem small_impactor_crater_km_small :
    0 ≤ (calculateCraterDimensions 1 3000 2500
        (calculateKineticEnergy 1 100 3000)).diameter_km ∧
      (calculateCraterDimensions 1 3000 2500
        (calculateKineticEnergy 1 100 3000)).diameter_km ≤ 1 / 2 := by
  have hke : calculateKineticEnergy 1 100 3000 = 2500000 * Real.pi := by
    unfold calculateKineticEnergy mass_kg volume_m3; ring
  have hx : calculateKineticEnergy 1 100 3000 / (2.5e6 * 2500) = Real.pi / 2500 := by
    rw [hke]; ring
  have hx0 : (0 : ℝ) ≤ Real.pi / 2500 := by positivity
  have hx1 : Real.pi / 2500 ≤ 1 := by
    have := Real.pi_le_four; linarith
  have h022 : (Real.pi / 2500 : ℝ) ^ (0.22 : ℝ) ≤ 1 :=
    Real.rpow_le_one hx0 hx1 (by norm_num)
  have h022n : (0 : ℝ) ≤ (Real.pi / 2500 : ℝ) ^ (0.22 : ℝ) :=
    Real.rpow_nonneg hx0 _
  have hbase : ((3000 : ℝ) / 2500) ^ ((1 : ℝ) / 3) ≤ 2 := by
    calc ((3000 : ℝ) / 2500) ^ ((1 : ℝ) / 3) ≤ (8 : ℝ) ^ ((1 : ℝ) / 3) :=
          Real.rpow_le_rpow (by norm_num) (by norm_num) (by norm_num)
      _ = 2 := by
          rw [show (8 : ℝ) = 2 ^ (3 : ℕ) by norm_num, rpow_third_cube 2 (by norm_num)]
  have hbase0 : (0 : ℝ) ≤ ((3000 : ℝ) / 2500) ^ ((1 : ℝ) / 3) :=
    Real.rpow_nonneg (by norm_num) _
  unfold calculateCraterDimensions
  simp only [hx]
  constructor
  · positivity
  · nlinarith

/-- C6 counterexample: a 1 m impactor at 100 m/s into 1000 m of water
(is_land false, water depth positive) produces a tsunami component whose
initial wave height at the impact point is below 0.1 m - the source floors
the per-distance heights with `max(0.1, _)` but not the initial height. -/
theorem tsunami_initial_height_below_floor :
    ∃ td, (calculateImpactEffects 1 100 3000 2500 0 0 0 false 1000
        "ts").tsunami = some td ∧
      td.initial_wave_height_m < 0.1 ∧ 0.1 ≤ td.wave_10 ∧ 0.1 ≤ td.wave_50 ∧
      0.1 ≤ td.wave_100 ∧ 0.1 ≤ td.wave_500 ∧ 0.1 ≤ td.wave_1000 := by
  obtain ⟨hD0, hD⟩ := small_impactor_crater_km_small
  obtain ⟨td, htd, hlt⟩ := tsunami_initial_small_of_small_crater _ hD0 hD
  refine ⟨td, ?_, hlt, ?_, ?_, ?_, ?_, ?_⟩
  · simpa [calculateImpactEffects] using htd
  all_goals
    have hd : ¬((1000 : ℝ) ≤ 0) := by norm_num
    simp only [calculateTsunamiEffects, if_neg hd, Option.some.injEq] at htd
    rw [← htd]
    exact le_max_left _ _

/-- C6 amended: the tsunami component is absent exactly when `is_land` is
true or the water depth is non-positive; when present, each of the five
per-distance wave heights is floored at 0.1 m (the initial wave height at the
impact point is not floored and can be smaller). -/
theorem tsunami_presence_and_distance_floor
    (d v rhoI rhoT lat lon elev : ℝ) (is_land : Bool) (depth : ℝ) (now : String) :
    ((calculateImpactEffects d v rhoI rhoT lat lon elev is_land depth now).tsunami =
        none ↔ (is_land = true ∨ depth ≤ 0)) ∧
      (∀ td,
        (calculateImpactEffects d v rhoI rhoT lat lon elev is_land depth now).tsunami =
            some td →
          0.1 ≤ td.wave_10 ∧ 0.1 ≤ td.wave_50 ∧ 0.1 ≤ td.wave_100 ∧
            0.1 ≤ td.wave_500 ∧ 0.1 ≤ td.wave_1000) := by
  cases is_land with
  | true => simp [calculateImpactEffects]
  | false =>
    by_cases hd : depth ≤ 0
    · simp [calculateImpactEffects, calculateTsunamiEffects, hd]
    · constructor
      · simp [calculateImpactEffects, calculateTsunamiEffects, hd]
      · intro td htd
        rw [show (calculateImpactEffects d v rhoI rhoT lat lon elev false depth
              now).tsunami =
            calculateTsunamiEffects
              (calculateCraterDimensions d rhoI rhoT
                (calculateKineticEnergy d v rhoI)).diameter_km depth from by
          simp [calculateImpactEffects]] at htd
        simp only [calculateTsunamiEffects, if_neg hd, Option.some.injEq] at htd
        rw [← htd]
        exact ⟨le_max_left _ _, le_max_left _ _, le_max_left _ _,
          le_max_left _ _, le_max_left _ _⟩

/-- The kinetic energy of the 100 m / 17000 m/s / 3000 kg/m³ scenario in
closed form. -/
theorem ke_scenario_eq :
    calculateKineticEnergy 100 17000 3000 = 72250000000000000 * Real.pi := by
  unfold calculateKineticEnergy mass_kg volume_m3; ring

/-- Two-sided decimal bounds for the scenario's kinetic energy. -/
theorem ke_scenario_bounds :
    2.2697e17 < calculateKineticEnergy 100 17000 3000 ∧
      calculateKineticEnergy 100 17000 3000 < 2.2699e17 := by
  rw [ke_scenario_eq]
  constructor
  · nlinarith [Real.pi_gt_3141592]
  · nlinarith [Real.pi_lt_3141593]

/-- Two-sided bounds for `log10` of the scenario's kinetic energy:
`17.35 < log10 KE < 17.36`. -/
theorem logb_ke_scenario_bounds :
    (347 / 20 : ℝ) < Real.logb 10 (calculateKineticEnergy 100 17000 3000) ∧
      Real.logb 10 (calculateKineticEnergy 100 17000 3000) < 434 / 25 := by
  obtain ⟨hlo, hhi⟩ := ke_scenario_bounds
  have hkepos : (0 : ℝ) < calculateKineticEnergy 100 17000 3000 := by linarith
  constructor
  · rw [Real.lt_logb_iff_rpow_lt (by norm_num) hkepos]
    have h20 : ((10 : ℝ) ^ ((347 : ℝ) / 20)) ^ (20 : ℕ) = (10 : ℝ) ^ (347 : ℕ) := by
      rw [← Real.rpow_natCast ((10 : ℝ) ^ ((347 : ℝ) / 20)) 20,
        ← Real.rpow_mul (by norm_num : (0 : ℝ) ≤ 10),
        show ((347 : ℝ) / 20) * (20 : ℕ) = ((347 : ℕ) : ℝ) by norm_num,
        Real.rpow_natCast]
    have hle : (10 : ℝ) ^ ((347 : ℝ) / 20) ≤ 2.2697e17 := by
      refine le_of_pow_le_pow_left (n := 20) (by norm_num) (by norm_num) ?_
      rw [h20]; norm_num
    linarith
  · rw [Real.logb_lt_iff_lt_rpow (by norm_num) hkepos]
    have h25 : ((10 : ℝ) ^ ((434 : ℝ) / 25)) ^ (25 : ℕ) = (10 : ℝ) ^ (434 : ℕ) := by
      rw [← Real.rpow_natCast ((10 : ℝ) ^ ((434 : ℝ) / 25)) 25,
        ← Real.rpow_mul (by norm_num : (0 : ℝ) ≤ 10),
        show ((434 : ℝ) / 25) * (25 : ℕ) = ((434 : ℕ) : ℝ) by norm_num,
        Real.rpow_natCast]
    have hle : (2.2699e17 : ℝ) ≤ (10 : ℝ) ^ ((434 : ℝ) / 25) := by
      refine le_of_pow_le_pow_left (n := 25) (by norm_num)
        (Real.rpow_nonneg (by norm_num) _) ?_
      rw [h25]; norm_num
    linarith

/-- C7 counterexample: the moment magnitude the engine computes for the
100 m / 17000 m/s / 3000 kg/m³ scenario is below 5.77, so the claimed value
`0.67*log10(2.2698e17) - 5.87 ≈ 5.83` is wrong (the formula evaluates to
about 5.76). -/
theorem moment_magnitude_scenario_below_577 :
    (calculateEarthquakeEffects
        (calculateKineticEnergy 100 17000 3000)).moment_magnitude < 5.77 := by
  obtain ⟨-, hhi⟩ := logb_ke_scenario_bounds
  show 0.67 * Real.logb 10 (calculateKineticEnergy 100 17000 3000) - 5.87 < 5.77
  nlinarith

/-- C7 amended: for diameter 100 m, velocity 17000 m/s, density 3000 kg/m³
the engine computes volume ≈ 523599 m³, mass ≈ 1.5708e9 kg,
KE ≈ 2.2698e17 J ≈ 54.25 megatons TNT, and the moment magnitude
`0.67*log10(KE) - 5.87` evaluates to ≈ 5.76 (strictly between 5.75 and
5.77), not ≈ 5.83. -/
theorem concrete_scenario_values :
    (523598 < volume_m3 100 ∧ volume_m3 100 < 523599) ∧
      (1.5707e9 < mass_kg 100 3000 ∧ mass_kg 100 3000 < 1.5709e9) ∧
      (2.2697e17 < calculateKineticEnergy 100 17000 3000 ∧
        calculateKineticEnergy 100 17000 3000 < 2.2699e17) ∧
      (54.24 < calculateKineticEnergy 100 17000 3000 * JOULES_TO_MEGATONS ∧
        calculateKineticEnergy 100 17000 3000 * JOULES_TO_MEGATONS < 54.26) ∧
      (calculateEarthquakeEffects
          (calculateKineticEnergy 100 17000 3000)).moment_magnitude =
        0.67 * Real.logb 10 (calculateKineticEnergy 100 17000 3000) - 5.87 ∧
      (5.75 < (calculateEarthquakeEffects
          (calculateKineticEnergy 100 17000 3000)).moment_magnitude ∧
        (calculateEarthquakeEffects
          (calculateKineticEnergy 100 17000 3000)).moment_magnitude < 5.77) := by
  obtain ⟨hkelo, hkehi⟩ := ke_scenario_bounds
  obtain ⟨hllo, hlhi⟩ := logb_ke_scenario_bounds
  refine ⟨⟨?_, ?_⟩, ⟨?_, ?_⟩, ⟨hkelo, hkehi⟩, ⟨?_, ?_⟩, rfl, ⟨?_, ?_⟩⟩
  · unfold volume_m3; nlinarith [Real.pi_gt_3141592]
  · unfold volume_m3; nlinarith [Real.pi_lt_3141593]
  · unfold mass_kg volume_m3; nlinarith [Real.pi_gt_3141592]
  · unfold mass_kg volume_m3; nlinarith [Real.pi_lt_3141593]
  · unfold JOULES_TO_MEGATONS; nlinarith
  · unfold JOULES_TO_MEGATONS; nlinarith
  · show 5.75 < 0.67 * Real.logb 10 (calculateKineticEnergy 100 17000 3000) - 5.87
    nlinarith
  · show 0.67 * Real.logb 10 (calculateKineticEnergy 100 17000 3000) - 5.87 < 5.77
    nlinarith

theorem ke1000_third : (1000 : ℝ) ^ ((1 : ℝ) / 3) = 10 := by
  rw [show (1000 : ℝ) = 10 ^ (3 : ℕ) by norm_num, rpow_third_cube 10 (by norm_num)]

theorem ke1000_twothird : (1000 : ℝ) ^ ((2 : ℝ) / 3) = 100 := by
  rw [show (1000 : ℝ) = 10 ^ (3 : ℕ) by norm_num, rpow_twothird_cube 10 (by norm_num)]
  norm_num

theorem overpressure_ke1000 (r : ℝ) :
    overpressure 1000 r = 8.5 / r + 300 / r ^ (2 : ℕ) + 7000 / r ^ (3 : ℕ) := by
  unfold overpressure
  rw [ke1000_third, ke1000_twothird]
  ring

theorem overpressureDeriv_ke1000 (r : ℝ) :
    overpressureDeriv 1000 r =
      -(8.5 / r ^ (2 : ℕ)) - 600 / r ^ (3 : ℕ) - 21000 / r ^ (4 : ℕ) := by
  unfold overpressureDeriv
  rw [ke1000_third, ke1000_twothird]
  ring

theorem overpressure_ke1000_frac (r : ℝ) (hr : r ≠ 0) :
    overpressure 1000 r = (8.5 * r ^ 2 + 300 * r + 7000) / r ^ 3 := by
  rw [overpressure_ke1000]
  field_simp
  ring

theorem overpressureDeriv_ke1000_frac (r : ℝ) (hr : r ≠ 0) :
    overpressureDeriv 1000 r = -((8.5 * r ^ 2 + 600 * r + 21000) / r ^ 4) := by
  rw [overpressureDeriv_ke1000]
  field_simp
  ring

theorem newtonStep_ke1000_eq (p r : ℝ) (hr : r ≠ 0)
    (hq2 : 8.5 * r ^ 2 + 600 * r + 21000 ≠ 0) :
    newtonStep 1000 p r =
      r + r * ((8.5 * r ^ 2 + 300 * r + 7000) - p * r ^ 3) /
        (8.5 * r ^ 2 + 600 * r + 21000) := by
  unfold newtonStep
  rw [overpressure_ke1000_frac r hr, overpressureDeriv_ke1000_frac r hr]
  rw [div_neg, sub_neg_eq_add, div_div_eq_mul_div]
  congr 1
  field_simp
  ring

theorem q2_pos (r : ℝ) : 0 < 8.5 * r ^ 2 + 600 * r + 21000 := by
  nlinarith [sq_nonneg (r + 600 / 17)]

theorem deriv_ke1000_neg (r : ℝ) (hr : r ≠ 0) : overpressureDeriv 1000 r < 0 := by
  rw [overpressureDeriv_ke1000_frac r hr]
  have h1 := q2_pos r
  have h2 : (0 : ℝ) < r ^ 4 := by positivity
  exact neg_lt_zero.mpr (div_pos h1 h2)

theorem dive_noexcept (r : ℝ) (hrA : r ≤ -(1e8 : ℝ)) (hrB : -(1e55 : ℝ) ≤ r) :
    ¬ newtonExcept 1000 r := by
  have hrneg : r < 0 := lt_of_le_of_lt hrA (by norm_num)
  have hrne : r ≠ 0 := ne_of_lt hrneg
  have hr2 : r ^ 2 ≤ (1e110 : ℝ) := by nlinarith
  have hr3 : |r ^ 3| ≤ (1e165 : ℝ) := by
    rw [abs_of_nonpos (by nlinarith)]
    nlinarith
  have hr4 : r ^ 4 ≤ (1e220 : ℝ) := by nlinarith
  have hfm : (1e220 : ℝ) ≤ floatMax := by
    unfold floatMax; norm_num
  intro h
  rcases h with h | h | h
  · exact hrne h
  · rcases h with h | h | h
    · exact absurd h (not_lt.mpr (by unfold floatMax at *; nlinarith))
    · exact absurd h (not_lt.mpr (by unfold floatMax at *; nlinarith))
    · exact absurd h (not_lt.mpr (by nlinarith))
  · exact absurd h (ne_of_lt (deriv_ke1000_neg r hrne))

theorem dive_step_bounds (p r : ℝ) (hp1 : 6894.76 ≤ p) (hp2 : p ≤ 103421.4)
    (hrA : r ≤ -(1e8 : ℝ)) (hrB : -(1e55 : ℝ) ≤ r) :
    1 ≤ |newtonStep 1000 p r - r| ∧
      newtonStep 1000 p r ≤ -(800 * r ^ 2) ∧
      -(12400 * r ^ 2) ≤ newtonStep 1000 p r := by
  have hrneg : r < 0 := lt_of_le_of_lt hrA (by norm_num)
  have hrne : r ≠ 0 := ne_of_lt hrneg
  have hq2 := q2_pos r
  have hN := newtonStep_ke1000_eq p r hrne (ne_of_gt hq2)
  have hr2 : (1e16 : ℝ) ≤ r ^ 2 := by nlinarith
  have hr3 : r ^ 3 ≤ -(1e24 : ℝ) := by nlinarith
  have hr4 : (1e16 : ℝ) * r ^ 2 ≤ r ^ 4 := by nlinarith
  have hr4pos : (0 : ℝ) < r ^ 4 := by positivity
  have hs_le : r * ((8.5 * r ^ 2 + 300 * r + 7000) - p * r ^ 3) ≤
      (-1 : ℝ) * (8.5 * r ^ 2 + 600 * r + 21000) := by
    nlinarith [hr2, hr3, hr4, mul_le_mul_of_nonneg_left hr2 (by linarith : (0:ℝ) ≤ p - 6894)]
  have hupper : r * ((8.5 * r ^ 2 + 300 * r + 7000) - p * r ^ 3) ≤
      (-(800 * r ^ 2) - r) * (8.5 * r ^ 2 + 600 * r + 21000) := by
    nlinarith [hr2, hr3, hr4, hr4pos]
  have hlower : (-(12400 * r ^ 2) - r) * (8.5 * r ^ 2 + 600 * r + 21000) ≤
      r * ((8.5 * r ^ 2 + 300 * r + 7000) - p * r ^ 3) := by
    nlinarith [hr2, hr3, hr4, hr4pos]
  refine ⟨?_, ?_, ?_⟩
  · rw [hN]
    have : r + r * ((8.5 * r ^ 2 + 300 * r + 7000) - p * r ^ 3) /
        (8.5 * r ^ 2 + 600 * r + 21000) - r =
        r * ((8.5 * r ^ 2 + 300 * r + 7000) - p * r ^ 3) /
          (8.5 * r ^ 2 + 600 * r + 21000) := by ring
    rw [this]
    refine le_abs.mpr (Or.inr ?_)
    rw [le_neg]
    rw [div_le_iff hq2]
    linarith [hs_le]
  · rw [hN]
    have hx : r * (8.5 * r ^ 2 + 300 * r + 7000 - p * r ^ 3) /
        (8.5 * r ^ 2 + 600 * r + 21000) ≤ -(800 * r ^ 2) - r := by
      rw [div_le_iff hq2]
      exact hupper
    linarith
  · rw [hN]
    have hx : -(12400 * r ^ 2) - r ≤ r * (8.5 * r ^ 2 + 300 * r + 7000 - p * r ^ 3) /
        (8.5 * r ^ 2 + 600 * r + 21000) := by
      rw [le_div_iff hq2]
      exact hlower
    linarith

theorem overpressure_ke1000_at_1000 : overpressure 1000 1000 = 0.008807 := by
  rw [overpressure_ke1000]
  norm_num

theorem overpressureDeriv_ke1000_at_1000 :
    overpressureDeriv 1000 1000 = -0.000009121 := by
  rw [overpressureDeriv_ke1000]
  norm_num

theorem noexcept_ke1000_at_1000 : ¬ newtonExcept 1000 1000 := by
  intro h
  rcases h with h | h | h
  · norm_num at h
  · rcases h with h | h | h
    · unfold floatMax at h; norm_num at h
    · rw [show |(1000 : ℝ) ^ (3 : ℕ)| = 1000 ^ (3 : ℕ) from abs_of_nonneg (by norm_num)] at h
      unfold floatMax at h; norm_num at h
    · unfold floatMax at h; norm_num at h
  · rw [overpressureDeriv_ke1000_at_1000] at h
    norm_num at h

theorem first_dive_step (p : ℝ) (hp1 : 6894.76 ≤ p) (hp2 : p ≤ 103421.4) :
    newtonStep 1000 p 1000 ≤ -(1e8 : ℝ) ∧ -(1.2e10 : ℝ) ≤ newtonStep 1000 p 1000 := by
  unfold newtonStep
  rw [overpressure_ke1000_at_1000, overpressureDeriv_ke1000_at_1000]
  rw [show ∀ x : ℝ, (0.008807 - x) / (-0.000009121 : ℝ) =
      (x - 0.008807) * (1000000000 / 9121) from fun x => by ring]
  constructor
  · nlinarith
  · nlinarith

theorem newtonLoop_succ_step (ke p : ℝ) (n : ℕ) (r r' : ℝ)
    (hr' : newtonStep ke p r = r') (h1 : ¬ newtonExcept ke r)
    (h2 : 1 ≤ |r' - r|) :
    newtonLoop ke p (n + 1) r = newtonLoop ke p n r' := by
  subst hr'
  simp only [newtonLoop, if_neg h1]
  rw [if_neg (not_lt.mpr h2)]

theorem newtonLoop_succ_none (ke p : ℝ) (n : ℕ) (r : ℝ) (h : newtonExcept ke r) :
    newtonLoop ke p (n + 1) r = none := by
  simp only [newtonLoop, if_pos h]

theorem newtonLoop_ke1000_none (p : ℝ) (hp1 : 6894.76 ≤ p) (hp2 : p ≤ 103421.4) :
    newtonLoop 1000 p 100 1000 = none := by
  obtain ⟨h1a, h1b⟩ := first_dive_step p hp1 hp2
  set r1 := newtonStep 1000 p 1000 with hr1def
  have hr1B : -(1e55 : ℝ) ≤ r1 := by linarith
  clear_value r1
  obtain ⟨hs1, hu1, hl1⟩ := dive_step_bounds p r1 hp1 hp2 h1a hr1B
  set r2 := newtonStep 1000 p r1 with hr2def
  clear_value r2
  have hsq1a : (1e16 : ℝ) ≤ r1 ^ 2 := by linarith [sq_nonneg (r1 + 1e8)]
  have hsq1b : r1 ^ 2 ≤ (1.44e20 : ℝ) := by
    linarith [mul_nonneg (by linarith : (0 : ℝ) ≤ r1 + 1.2e10)
      (by linarith : (0 : ℝ) ≤ -r1)]
  have hr2a : r2 ≤ -(8e18 : ℝ) := by linarith
  have hr2b : -(1.8e24 : ℝ) ≤ r2 := by linarith
  have hr2B : -(1e55 : ℝ) ≤ r2 := by linarith
  obtain ⟨hs2, hu2, hl2⟩ := dive_step_bounds p r2 hp1 hp2 (by linarith) hr2B
  set r3 := newtonStep 1000 p r2 with hr3def
  clear_value r3
  have hsq2b : r2 ^ 2 ≤ (3.24e48 : ℝ) := by
    linarith [mul_nonneg (by linarith : (0 : ℝ) ≤ r2 + 1.8e24)
      (by linarith : (0 : ℝ) ≤ -r2)]
  have hsq2a : (6.4e37 : ℝ) ≤ r2 ^ 2 := by linarith [sq_nonneg (r2 + 8e18)]
  have hr3a : r3 ≤ -(5e40 : ℝ) := by linarith
  have hr3b : -(4.1e52 : ℝ) ≤ r3 := by linarith
  have hr3B : -(1e55 : ℝ) ≤ r3 := by linarith
  obtain ⟨hs3, hu3, hl3⟩ := dive_step_bounds p r3 hp1 hp2 (by linarith) hr3B
  set r4 := newtonStep 1000 p r3 with hr4def
  clear_value r4
  have hsq3a : (2.5e81 : ℝ) ≤ r3 ^ 2 := by linarith [sq_nonneg (r3 + 5e40)]
  have hr4a : r4 ≤ -(2e84 : ℝ) := by linarith
  have hover : newtonExcept 1000 r4 := by
    refine Or.inr (Or.inl (Or.inr (Or.inr ?_)))
    have h4 : (1.6e337 : ℝ) ≤ r4 ^ (4 : ℕ) := by
      have hsq4 : (4e168 : ℝ) ≤ r4 ^ 2 := by linarith [sq_nonneg (r4 + 2e84)]
      have hpow : r4 ^ (4 : ℕ) = (r4 ^ 2) ^ 2 := by ring
      rw [hpow]
      linarith [sq_nonneg (r4 ^ 2 - 4e168)]
    have hfm : floatMax < (1.6e337 : ℝ) := by unfold floatMax; norm_num
    linarith
  have hstep0 : 1 ≤ |r1 - (1000 : ℝ)| := le_abs.mpr (Or.inr (by linarith))
  have e1 : newtonLoop 1000 p 100 1000 = newtonLoop 1000 p 99 r1 :=
    newtonLoop_succ_step 1000 p 99 1000 r1 hr1def.symm noexcept_ke1000_at_1000 hstep0
  have e2 : newtonLoop 1000 p 99 r1 = newtonLoop 1000 p 98 r2 :=
    newtonLoop_succ_step 1000 p 98 r1 r2 hr2def.symm (dive_noexcept r1 h1a hr1B) hs1
  have e3 : newtonLoop 1000 p 98 r2 = newtonLoop 1000 p 97 r3 :=
    newtonLoop_succ_step 1000 p 97 r2 r3 hr3def.symm
      (dive_noexcept r2 (by linarith) hr2B) hs2
  have e4 : newtonLoop 1000 p 97 r3 = newtonLoop 1000 p 96 r4 :=
    newtonLoop_succ_step 1000 p 96 r3 r4 hr4def.symm
      (dive_noexcept r3 (by linarith) hr3B) hs3
  have e5 : newtonLoop 1000 p 96 r4 = none :=
    newtonLoop_succ_none 1000 p 95 r4 hover
  rw [e1, e2, e3, e4, e5]

theorem solve_ke1000_fallback (psi : ℝ) (h1 : 6894.76 ≤ psi * 6894.76)
    (h2 : psi * 6894.76 ≤ 103421.4) :
    solveOverpressureRadius 1000 psi = 1 / 100 := by
  unfold solveOverpressureRadius
  rw [newtonLoop_ke1000_none (psi * 6894.76) h1 h2, ke1000_third]
  norm_num

/-- C2 counterexample: at KE = 1000 J every one of the four threshold solves
dives to huge negative iterates within four Newton steps, overflows the
float range (raising `OverflowError` in the source) and falls back to
`KE^(1/3)/1000 = 0.01 km`; the four radii are all equal, so they are not
strictly decreasing in the threshold. -/
theorem blast_radii_all_equal_at_ke1000 :
    solveOverpressureRadius 1000 1.0 = 1 / 100 ∧
      solveOverpressureRadius 1000 2.5 = 1 / 100 ∧
      solveOverpressureRadius 1000 5.0 = 1 / 100 ∧
      solveOverpressureRadius 1000 15.0 = 1 / 100 ∧
      ¬(solveOverpressureRadius 1000 2.5 < solveOverpressureRadius 1000 1.0 ∧
        solveOverpressureRadius 1000 5.0 < solveOverpressureRadius 1000 2.5 ∧
        solveOverpressureRadius 1000 15.0 < solveOverpressureRadius 1000 5.0) := by
  have h1 := solve_ke1000_fallback 1.0 (by norm_num) (by norm_num)
  have h2 := solve_ke1000_fallback 2.5 (by norm_num) (by norm_num)
  have h5 := solve_ke1000_fallback 5.0 (by norm_num) (by norm_num)
  have h15 := solve_ke1000_fallback 15.0 (by norm_num) (by norm_num)
  refine ⟨h1, h2, h5, h15, ?_⟩
  rw [h1, h2, h5, h15]
  simp

/-- C2 amended: the four blast radii are strictly decreasing only when the
per-threshold solves do not hit the exception fallback; whenever two
thresholds both fall back their radii are equal (both `KE^(1/3)/1000`), as
happens for all four thresholds at small KE such as 1000 J. -/
theorem blast_radii_equal_when_both_fall_back (ke t1 t2 : ℝ)
    (h1 : newtonLoop ke (t1 * 6894.76) 100 1000 = none)
    (h2 : newtonLoop ke (t2 * 6894.76) 100 1000 = none) :
    solveOverpressureRadius ke t1 = solveOverpressureRadius ke t2 ∧
      solveOverpressureRadius ke t1 = ke ^ ((1 : ℝ) / 3) / 1000 := by
  unfold solveOverpressureRadius
  rw [h1, h2]
  exact ⟨rfl, rfl⟩

theorem blast_radii_fallback_witness :
    solveOverpressureRadius 1000 1.0 = solveOverpressureRadius 1000 15.0 ∧
      solveOverpressureRadius 1000 1.0 = (1000 : ℝ) ^ ((1 : ℝ) / 3) / 1000 :=
  blast_radii_equal_when_both_fall_back 1000 1.0 15.0
    (newtonLoop_ke1000_none (1.0 * 6894.76) (by norm_num) (by norm_num))
    (newtonLoop_ke1000_none (15.0 * 6894.76) (by norm_num) (by norm_num))

theorem ke120_third : ((10 : ℝ) ^ (120 : ℕ)) ^ ((1 : ℝ) / 3) = 10 ^ (40 : ℕ) := by
  rw [show ((10 : ℝ) ^ (120 : ℕ)) = ((10 : ℝ) ^ (40 : ℕ)) ^ (3 : ℕ) by
    rw [← pow_mul], rpow_third_cube _ (by positivity)]

theorem ke120_twothird : ((10 : ℝ) ^ (120 : ℕ)) ^ ((2 : ℝ) / 3) = 10 ^ (80 : ℕ) := by
  rw [show ((10 : ℝ) ^ (120 : ℕ)) = ((10 : ℝ) ^ (40 : ℕ)) ^ (3 : ℕ) by
    rw [← pow_mul], rpow_twothird_cube _ (by positivity), ← pow_mul]

theorem overpressure_ke120_frac (r : ℝ) (hr : r ≠ 0) :
    overpressure (10 ^ (120 : ℕ)) r =
      (0.85 * 10 ^ (40 : ℕ) * r ^ 2 + 3 * 10 ^ (80 : ℕ) * r + 7 * 10 ^ (120 : ℕ)) /
        r ^ 3 := by
  unfold overpressure
  rw [ke120_third, ke120_twothird]
  field_simp
  ring

theorem overpressureDeriv_ke120_frac (r : ℝ) (hr : r ≠ 0) :
    overpressureDeriv (10 ^ (120 : ℕ)) r =
      -((0.85 * 10 ^ (40 : ℕ) * r ^ 2 + 6 * 10 ^ (80 : ℕ) * r + 21 * 10 ^ (120 : ℕ)) /
        r ^ 4) := by
  unfold overpressureDeriv
  rw [ke120_third, ke120_twothird]
  field_simp
  ring

theorem newtonStep_ke120_eq (p r : ℝ) (hr : r ≠ 0)
    (hq2 : 0.85 * 10 ^ (40 : ℕ) * r ^ 2 + 6 * 10 ^ (80 : ℕ) * r + 21 * 10 ^ (120 : ℕ) ≠ 0) :
    newtonStep (10 ^ (120 : ℕ)) p r =
      r + r * ((0.85 * 10 ^ (40 : ℕ) * r ^ 2 + 3 * 10 ^ (80 : ℕ) * r + 7 * 10 ^ (120 : ℕ)) -
          p * r ^ 3) /
        (0.85 * 10 ^ (40 : ℕ) * r ^ 2 + 6 * 10 ^ (80 : ℕ) * r + 21 * 10 ^ (120 : ℕ)) := by
  unfold newtonStep
  rw [overpressure_ke120_frac r hr, overpressureDeriv_ke120_frac r hr]
  rw [div_neg, sub_neg_eq_add, div_div_eq_mul_div]
  congr 1
  field_simp
  ring

theorem ke120_step_bounds (p r : ℝ) (hp1 : 6894.76 ≤ p) (hp2 : p ≤ 103421.4)
    (h1 : 1000 ≤ r) (h2 : r ≤ 1000 * 2 ^ (100 : ℕ)) :
    (¬ newtonExcept (10 ^ (120 : ℕ)) r) ∧
      r + 1 ≤ newtonStep (10 ^ (120 : ℕ)) p r ∧
      newtonStep (10 ^ (120 : ℕ)) p r ≤ 2 * r := by
  have hrpos : (0 : ℝ) < r := by linarith
  have hrne : r ≠ 0 := ne_of_gt hrpos
  have hq2 : (0 : ℝ) <
      0.85 * 10 ^ (40 : ℕ) * r ^ 2 + 6 * 10 ^ (80 : ℕ) * r + 21 * 10 ^ (120 : ℕ) := by
    positivity
  have hN := newtonStep_ke120_eq p r hrne (ne_of_gt hq2)
  have hr3pos : (0 : ℝ) < r ^ 3 := by positivity
  have hr4pos : (0 : ℝ) < r ^ 4 := by positivity
  have hprod : p * r ^ 4 ≤ 103421.4 * (1000 * 2 ^ (100 : ℕ)) * r ^ 3 := by
    have ha : p * r ^ 4 ≤ 103421.4 * r ^ 4 :=
      mul_le_mul_of_nonneg_right hp2 (le_of_lt hr4pos)
    have hb : r ^ 4 = r * r ^ 3 := by ring
    have hc : r * r ^ 3 ≤ (1000 * 2 ^ (100 : ℕ)) * r ^ 3 :=
      mul_le_mul_of_nonneg_right h2 (le_of_lt hr3pos)
    calc p * r ^ 4 ≤ 103421.4 * r ^ 4 := ha
      _ = 103421.4 * (r * r ^ 3) := by rw [← hb]
      _ ≤ 103421.4 * ((1000 * 2 ^ (100 : ℕ)) * r ^ 3) := by
          exact mul_le_mul_of_nonneg_left hc (by norm_num)
      _ = 103421.4 * (1000 * 2 ^ (100 : ℕ)) * r ^ 3 := by ring
  have hppos : 0 ≤ p * r ^ 3 := mul_nonneg (by linarith) (le_of_lt hr3pos)
  refine ⟨?_, ?_, ?_⟩
  · intro h
    rcases h with h | h | h
    · exact hrne h
    · have hr2b : r ^ 2 ≤ (1000 * 2 ^ (100 : ℕ)) ^ 2 := by nlinarith
      have hr3b : r ^ 3 ≤ (1000 * 2 ^ (100 : ℕ)) ^ 3 := by nlinarith
      have hr4b : r ^ 4 ≤ (1000 * 2 ^ (100 : ℕ)) ^ 4 := by nlinarith
      rcases h with h | h | h
      · rw [show floatMax = 2 ^ (1024 : ℕ) - 2 ^ (971 : ℕ) from rfl] at h
        nlinarith [h]
      · rw [abs_of_nonneg (le_of_lt hr3pos),
          show floatMax = 2 ^ (1024 : ℕ) - 2 ^ (971 : ℕ) from rfl] at h
        nlinarith [h]
      · rw [show floatMax = 2 ^ (1024 : ℕ) - 2 ^ (971 : ℕ) from rfl] at h
        nlinarith [h]
    · rw [overpressureDeriv_ke120_frac r hrne] at h
      have := neg_lt_zero.mpr (div_pos hq2 hr4pos)
      exact absurd h (ne_of_lt this)
  · rw [hN]
    have hkey : 0.85 * 10 ^ (40 : ℕ) * r ^ 2 + 6 * 10 ^ (80 : ℕ) * r + 21 * 10 ^ (120 : ℕ) ≤
        r * ((0.85 * 10 ^ (40 : ℕ) * r ^ 2 + 3 * 10 ^ (80 : ℕ) * r + 7 * 10 ^ (120 : ℕ)) -
          p * r ^ 3) := by
      nlinarith [hprod, hr3pos, sq_nonneg r, mul_le_mul_of_nonneg_right h1 (le_of_lt hr3pos)]
    have : (1 : ℝ) ≤ r * ((0.85 * 10 ^ (40 : ℕ) * r ^ 2 + 3 * 10 ^ (80 : ℕ) * r +
        7 * 10 ^ (120 : ℕ)) - p * r ^ 3) /
        (0.85 * 10 ^ (40 : ℕ) * r ^ 2 + 6 * 10 ^ (80 : ℕ) * r + 21 * 10 ^ (120 : ℕ)) := by
      rw [le_div_iff hq2]
      linarith
    linarith
  · rw [hN]
    have hkey : r * ((0.85 * 10 ^ (40 : ℕ) * r ^ 2 + 3 * 10 ^ (80 : ℕ) * r +
        7 * 10 ^ (120 : ℕ)) - p * r ^ 3) ≤
        r * (0.85 * 10 ^ (40 : ℕ) * r ^ 2 + 6 * 10 ^ (80 : ℕ) * r + 21 * 10 ^ (120 : ℕ)) := by
      have : (0.85 * 10 ^ (40 : ℕ) * r ^ 2 + 3 * 10 ^ (80 : ℕ) * r + 7 * 10 ^ (120 : ℕ)) -
          p * r ^ 3 ≤
          0.85 * 10 ^ (40 : ℕ) * r ^ 2 + 6 * 10 ^ (80 : ℕ) * r + 21 * 10 ^ (120 : ℕ) := by
        nlinarith [hppos, h1]
      exact mul_le_mul_of_nonneg_left this (le_of_lt hrpos)
    have : r * ((0.85 * 10 ^ (40 : ℕ) * r ^ 2 + 3 * 10 ^ (80 : ℕ) * r +
        7 * 10 ^ (120 : ℕ)) - p * r ^ 3) /
        (0.85 * 10 ^ (40 : ℕ) * r ^ 2 + 6 * 10 ^ (80 : ℕ) * r + 21 * 10 ^ (120 : ℕ)) ≤ r := by
      rw [div_le_iff hq2]
      linarith [hkey]
    linarith

theorem ke120_iter_bounds (p : ℝ) (hp1 : 6894.76 ≤ p) (hp2 : p ≤ 103421.4) :
    ∀ k, k ≤ 100 → 1000 ≤ newtonIter (10 ^ (120 : ℕ)) p k ∧
      newtonIter (10 ^ (120 : ℕ)) p k ≤ 1000 * 2 ^ k := by
  intro k
  induction k with
  | zero => intro; simp [newtonIter]
  | succ n ih =>
    intro hn
    obtain ⟨ha, hb⟩ := ih (by omega)
    have hup : newtonIter (10 ^ (120 : ℕ)) p n ≤ 1000 * 2 ^ (100 : ℕ) := by
      refine le_trans hb ?_
      have : (2 : ℝ) ^ n ≤ 2 ^ (100 : ℕ) := by
        exact pow_le_pow_right (by norm_num) (by omega)
      linarith
    obtain ⟨-, hs1, hs2⟩ := ke120_step_bounds p _ hp1 hp2 ha hup
    have hiter : newtonIter (10 ^ (120 : ℕ)) p (n + 1) =
        newtonStep (10 ^ (120 : ℕ)) p (newtonIter (10 ^ (120 : ℕ)) p n) := by
      unfold newtonIter
      rw [Function.iterate_succ_apply']
    rw [hiter]
    constructor
    · linarith
    · calc newtonStep (10 ^ (120 : ℕ)) p (newtonIter (10 ^ (120 : ℕ)) p n) ≤
          2 * newtonIter (10 ^ (120 : ℕ)) p n := hs2
        _ ≤ 2 * (1000 * 2 ^ n) := by linarith
        _ = 1000 * 2 ^ (n + 1) := by ring

theorem newtonLoop_eq_iterate (ke p : ℝ) :
    ∀ (n : ℕ) (r : ℝ),
      (∀ k, k < n → ¬ newtonExcept ke ((newtonStep ke p)^[k] r) ∧
        1 ≤ |newtonStep ke p ((newtonStep ke p)^[k] r) - (newtonStep ke p)^[k] r|) →
      newtonLoop ke p n r = some ((newtonStep ke p)^[n] r) := by
  intro n
  induction n with
  | zero => intro r _; simp [newtonLoop]
  | succ m ih =>
    intro r h
    have h0 := h 0 (by omega)
    rw [Function.iterate_zero_apply] at h0
    rw [newtonLoop_succ_step ke p m r (newtonStep ke p r) rfl h0.1 h0.2]
    rw [ih (newtonStep ke p r) (fun k hk => by
      have hx := h (k + 1) (by omega)
      rwa [Function.iterate_succ_apply] at hx)]
    rw [← Function.iterate_succ_apply]

theorem ke120_loop_conditions (p : ℝ) (hp1 : 6894.76 ≤ p) (hp2 : p ≤ 103421.4) :
    ∀ k, k < 100 → ¬ newtonExcept (10 ^ (120 : ℕ)) (newtonIter (10 ^ (120 : ℕ)) p k) ∧
      1 ≤ |newtonStep (10 ^ (120 : ℕ)) p (newtonIter (10 ^ (120 : ℕ)) p k) -
        newtonIter (10 ^ (120 : ℕ)) p k| := by
  intro k hk
  obtain ⟨ha, hb⟩ := ke120_iter_bounds p hp1 hp2 k (by omega)
  have hup : newtonIter (10 ^ (120 : ℕ)) p k ≤ 1000 * 2 ^ (100 : ℕ) := by
    refine le_trans hb ?_
    have : (2 : ℝ) ^ k ≤ 2 ^ (100 : ℕ) := pow_le_pow_right (by norm_num) (by omega)
    linarith
  obtain ⟨hne, hs1, hs2⟩ := ke120_step_bounds p _ hp1 hp2 ha hup
  exact ⟨hne, le_abs.mpr (Or.inl (by linarith))⟩

theorem solve_ke120_eq_last_iterate :
    solveOverpressureRadius (10 ^ (120 : ℕ)) 1 =
      newtonIter (10 ^ (120 : ℕ)) (1 * 6894.76) 100 / 1000 := by
  unfold solveOverpressureRadius
  rw [show newtonLoop (10 ^ (120 : ℕ)) (1 * 6894.76) 100 1000 =
      some ((newtonStep (10 ^ (120 : ℕ)) (1 * 6894.76))^[100] 1000) from
    newtonLoop_eq_iterate _ _ 100 1000 (fun k hk =>
      ke120_loop_conditions (1 * 6894.76) (by norm_num) (by norm_num) k hk)]
  rfl

/-- C1 counterexample: at KE = 10^120 J and threshold 1 psi the Newton
iteration never meets the 1 m tolerance within its 100 iterations (every
step, the hundredth included, moves by at least 1 m), yet the solver returns
the 100th iterate divided by 1000, NOT the fallback `KE^(1/3)/1000`. -/
theorem solver_nonconvergence_returns_iterate_not_fallback :
    solveOverpressureRadius (10 ^ (120 : ℕ)) 1 =
        newtonIter (10 ^ (120 : ℕ)) (1 * 6894.76) 100 / 1000 ∧
      1 ≤ |newtonIter (10 ^ (120 : ℕ)) (1 * 6894.76) 100 -
        newtonIter (10 ^ (120 : ℕ)) (1 * 6894.76) 99| ∧
      solveOverpressureRadius (10 ^ (120 : ℕ)) 1 ≠
        ((10 : ℝ) ^ (120 : ℕ)) ^ ((1 : ℝ) / 3) / 1000 := by
  refine ⟨solve_ke120_eq_last_iterate, ?_, ?_⟩
  · obtain ⟨-, hs⟩ := ke120_loop_conditions (1 * 6894.76) (by norm_num) (by norm_num)
      99 (by omega)
    have hiter : newtonIter (10 ^ (120 : ℕ)) (1 * 6894.76) 100 =
        newtonStep (10 ^ (120 : ℕ)) (1 * 6894.76)
          (newtonIter (10 ^ (120 : ℕ)) (1 * 6894.76) 99) := by
      unfold newtonIter
      rw [show (100 : ℕ) = 99 + 1 from rfl, Function.iterate_succ_apply']
    rw [hiter]
    exact hs
  · rw [solve_ke120_eq_last_iterate, ke120_third]
    obtain ⟨-, hb⟩ := ke120_iter_bounds (1 * 6894.76) (by norm_num) (by norm_num)
      100 (le_refl 100)
    intro h
    have hlt : newtonIter (10 ^ (120 : ℕ)) (1 * 6894.76) 100 / 1000 <
        (10 : ℝ) ^ (40 : ℕ) / 1000 := by
      have : (1000 : ℝ) * 2 ^ (100 : ℕ) < 10 ^ (40 : ℕ) := by norm_num
      have hb2 : newtonIter (10 ^ (120 : ℕ)) (1 * 6894.76) 100 < 10 ^ (40 : ℕ) := by
        linarith
      linarith
    exact absurd h (ne_of_lt hlt)

/-- C1 amended: the solver follows Newton-Raphson from 1000 m with the 1 m
step tolerance and the 100-iteration cap, but when the iteration fails to
converge (no step below 1 m and no exception in 100 iterations) it returns
the 100th iterate divided by 1000 - the fallback `KE^(1/3)/1000` is reserved
for runs in which evaluating the iteration raises an exception. -/
theorem solver_returns_last_iterate_on_nonconvergence (ke psi : ℝ)
    (h : ∀ k, k < 100 →
      ¬ newtonExcept ke (newtonIter ke (psi * 6894.76) k) ∧
        1 ≤ |newtonStep ke (psi * 6894.76) (newtonIter ke (psi * 6894.76) k) -
          newtonIter ke (psi * 6894.76) k|) :
    solveOverpressureRadius ke psi = newtonIter ke (psi * 6894.76) 100 / 1000 := by
  unfold solveOverpressureRadius
  rw [show newtonLoop ke (psi * 6894.76) 100 1000 =
      some ((newtonStep ke (psi * 6894.76))^[100] 1000) from
    newtonLoop_eq_iterate _ _ 100 1000 (fun k hk => h k hk)]
  rfl

theorem solver_last_iterate_witness :
    solveOverpressureRadius (10 ^ (120 : ℕ)) 1 =
      newtonIter (10 ^ (120 : ℕ)) (1 * 6894.76) 100 / 1000 :=
  solver_returns_last_iterate_on_nonconvergence (10 ^ (120 : ℕ)) 1
    (ke120_loop_conditions (1 * 6894.76) (by norm_num) (by norm_num))
